import Mathlib

/-!
Verification of the symptom-to-structured-diagnosis client of Dr.Uncle2024
(`src/index.py`), shallowly embedded in Lean.

The embedding models:
- JSON values (`Json`), since both the API envelope and the inner payload are
  dynamic JSON;
- the Python dynamic-lookup semantics the code relies on: `dict.get(k, default)`
  (`pyGet`) and `seq[0]` (`pyIndex0`), each of which can raise a Python
  exception that the embedded computation propagates as `Except.error`;
- `json.loads` as an abstract parameter `loads : String → Option Json`
  (it is standard-library code external to this repository); `none` models a
  raised `json.JSONDecodeError`;
- the outbound transport (`requests.post` + `raise_for_status` +
  `response.json()`) as a function from the request payload and the attempt
  index (0-based) to an outcome: `failure` models a raised
  `requests.exceptions.RequestException` (connection error, timeout, non-2xx
  status, and — in requests ≥ 2.27 — a 2xx body that is not JSON, since
  `requests.exceptions.JSONDecodeError` subclasses `RequestException`),
  while `success env` models a 2xx response whose body parsed to the JSON
  value `env`;
- `time.sleep(delay)` as recording `delay` in an ordered trace of sleeps.

The result of one call to `predict_disease_with_gemini` is a `RunResult`:
the value delivered to the caller (`Except.error e` when an uncaught Python
exception propagates out of the function), the number of transport attempts
made, and the trace of sleep durations.
-/

set_option autoImplicit false

namespace DrUncle

/-- A dynamic JSON value: the common type of the API envelope, the parsed
inner payload, the request payload and the inbound request body. -/
inductive Json where
  | null
  | bool (b : Bool)
  | num (n : Int)
  | str (s : String)
  | arr (items : List Json)
  | obj (fields : List (String × Json))

/-- The Python exceptions that can arise on the call/parse path of
`predict_disease_with_gemini`.  `requestException` and `jsonDecodeError`
are the two classes the code catches; `indexError`, `keyError`,
`typeError` and `attributeError` are uncaught and propagate to the caller. -/
inductive PyExc where
  | indexError
  | keyError
  | typeError
  | attributeError
  | jsonDecodeError
  | requestException

/-- Python `d.get(k, default)`: defined on dicts only; on any non-dict value
the attribute lookup `.get` raises `AttributeError`. -/
def pyGet (j : Json) (k : String) (default : Json) : Except PyExc Json :=
  match j with
  | .obj fields =>
      match fields.lookup k with
      | some v => .ok v
      | none => .ok default
  | _ => .error .attributeError

/-- Python `x[0]`: first element of a list (raising `IndexError` when the
list is empty), first character of a string (raising `IndexError` when the
string is empty), `KeyError` on a dict whose keys are strings, and
`TypeError` on values that are not subscriptable. -/
def pyIndex0 (j : Json) : Except PyExc Json :=
  match j with
  | .arr [] => .error .indexError
  | .arr (x :: _) => .ok x
  | .str s =>
      match s.data with
      | [] => .error .indexError
      | c :: _ => .ok (.str (String.mk [c]))
  | .obj _ => .error .keyError
  | _ => .error .typeError

/-- The chained envelope traversal of `src/index.py` line 61:
`response.json().get('candidates', [{}])[0].get('content', {})
.get('parts', [{}])[0].get('text', '{}')`. -/
def extractText (env : Json) : Except PyExc Json := do
  let candidates ← pyGet env "candidates" (Json.arr [Json.obj []])
  let cand0 ← pyIndex0 candidates
  let content ← pyGet cand0 "content" (Json.obj [])
  let parts ← pyGet content "parts" (Json.arr [Json.obj []])
  let part0 ← pyIndex0 parts
  pyGet part0 "text" (Json.str "\x7b\x7d")

/-- The error dictionary returned on `json.JSONDecodeError`
(`src/index.py` line 73). -/
def parseFailureResult : Json :=
  Json.obj
    [("predicted_disease", Json.str "Error"),
     ("description", Json.str "Failed to parse API response. The model may have returned an invalid format."),
     ("precautions", Json.arr []),
     ("home_remedies", Json.arr []),
     ("language", Json.str "English")]

/-- The error dictionary returned after the retry loop exhausts
(`src/index.py` line 75). -/
def retriesExhaustedResult : Json :=
  Json.obj
    [("predicted_disease", Json.str "Error"),
     ("description", Json.str "Failed to connect to the prediction service after multiple retries."),
     ("precautions", Json.arr []),
     ("home_remedies", Json.arr []),
     ("language", Json.str "English")]

/-- The instruction prompt built from the symptom text
(`src/index.py` lines 26-39, an f-string embedding `symptoms_input`). -/
def promptFor (symptoms_input : String) : String :=
  "\n    You are a friendly and professional medical assistant. A user has described their symptoms. Please respond in a conversational tone and use the same language they used (including Hinglish). Provide a likely disease, a brief description, precautions, and home remedies.\n\n    Symptoms provided: " ++ symptoms_input ++ "\n\n    Your response MUST be in a structured JSON format. Do not include any text outside of the JSON object. The JSON should have the following keys:\n    - \"predicted_disease\": The most likely disease based on the symptoms.\n    - \"description\": A concise, professional description of the disease.\n    - \"precautions\": An array of 3 to 4 strings, each being a clear, actionable precaution.\n    - \"home_remedies\": An array of 3 to 4 strings, each being a simple home remedy.\n    - \"language\": The language of the response, e.g., \"English\", \"Hindi\", or \"Hinglish\".\n\n    If the symptoms are too vague or do not match any known diseases, respond with a \"No prediction\" result in the user\x27s language.\n    "

/-- The `chat_history` list of `src/index.py` line 41. -/
def chat_history (symptoms_input : String) : Json :=
  Json.arr
    [Json.obj
      [("role", Json.str "user"),
       ("parts", Json.arr [Json.obj [("text", Json.str (promptFor symptoms_input))]])]]

/-- The request `payload` of `src/index.py` lines 42-47. -/
def payload (symptoms_input : String) : Json :=
  Json.obj
    [("contents", chat_history symptoms_input),
     ("generationConfig", Json.obj [("responseMimeType", Json.str "application/json")])]

/-- Outcome of one transport attempt (`requests.post` + `raise_for_status` +
`response.json()`): `failure` models a raised `RequestException`;
`success env` models a 2xx response whose JSON body is `env`. -/
inductive TransportOutcome where
  | failure
  | success (env : Json)

/-- A transport behaviour: the outcome as a function of the request payload
and the 0-based attempt index. -/
def Transport : Type := Json → Nat → TransportOutcome

/-- What one call to `predict_disease_with_gemini` does, observably:
the value handed to the caller (`Except.error e` when Python exception `e`
propagates out), the number of transport attempts made, and the ordered
trace of `time.sleep` durations. -/
structure RunResult where
  value : Except PyExc Json
  attempts : Nat
  sleeps : List Nat

/-- The retry loop of `src/index.py` lines 56-75.  `retries` counts past
failed attempts (the loop runs while `retries < max_retries`), `remaining`
is `max_retries - retries` (the structural fuel), `delay` the current
backoff delay, `sleepTrace` the sleeps already performed.

Per iteration: on transport failure (`RequestException`) the code increments
`retries`, sleeps `delay`, doubles `delay`, and loops.  On transport success
it runs the envelope traversal (whose `IndexError`, `KeyError`, `TypeError`
or `AttributeError` is caught by neither `except` clause and propagates),
then `json.loads` on the extracted text (`TypeError` when the extracted
value is not a string; a parse failure raises `json.JSONDecodeError`, caught
on line 71, returning `parseFailureResult`); a successful parse is returned
as-is.  When the loop exhausts, `retriesExhaustedResult` is returned. -/
def predictLoop (loads : String → Option Json) (transport : Transport)
    (p : Json) : Nat → Nat → Nat → List Nat → RunResult
  | retries, 0, _delay, sleepTrace =>
      { value := .ok retriesExhaustedResult, attempts := retries, sleeps := sleepTrace }
  | retries, remaining + 1, delay, sleepTrace =>
      match transport p retries with
      | .failure =>
          predictLoop loads transport p (retries + 1) remaining (delay * 2)
            (sleepTrace ++ [delay])
      | .success env =>
          match extractText env with
          | .error e => { value := .error e, attempts := retries + 1, sleeps := sleepTrace }
          | .ok resultText =>
              match resultText with
              | .str s =>
                  match loads s with
                  | some parsed =>
                      { value := .ok parsed, attempts := retries + 1, sleeps := sleepTrace }
                  | none =>
                      { value := .ok parseFailureResult, attempts := retries + 1,
                        sleeps := sleepTrace }
              | _ => { value := .error .typeError, attempts := retries + 1, sleeps := sleepTrace }

/-- The function `predict_disease_with_gemini` of `src/index.py` lines 13-75,
with the external collaborators (`json.loads` and the transport) passed as
parameters: `retries = 0`, `max_retries = 3`, `delay = 1`. -/
def predict_disease_with_gemini (loads : String → Option Json)
    (transport : Transport) (symptoms_input : String) : RunResult :=
  predictLoop loads transport (payload symptoms_input) 0 3 1 []

/-- Python `str(x)` as used by the f-string interpolation of the prompt.
Only the string case is ever exercised by the claims (the handler passes
`request.json.get('symptoms')` through); the renderings of the non-string
cases are schematic placeholders, not a model of Python repr. -/
def pyStr : Json → String
  | .str s => s
  | .null => "None"
  | .bool true => "True"
  | .bool false => "False"
  | .num n => toString n
  | .arr _ => "[...]"
  | .obj _ => "\x7b...\x7d"

/-- An HTTP response produced by the Flask view: status code and JSON body. -/
structure HttpResponse where
  status : Nat
  body : Json

/-- The `/predict` view of `src/index.py` lines 262-266: read
`request.json.get('symptoms')` (default `None`), call
`predict_disease_with_gemini`, and `jsonify` the result with status 200.
An uncaught Python exception from the diagnosis call propagates out of the
view (`Except.error`), where Flask turns it into an HTTP 500 error page. -/
def predict (loads : String → Option Json) (transport : Transport)
    (requestJson : Json) : Except PyExc HttpResponse :=
  match pyGet requestJson "symptoms" Json.null with
  | .error e => .error e
  | .ok symptoms =>
      match (predict_disease_with_gemini loads transport (pyStr symptoms)).value with
      | .ok result => .ok { status := 200, body := result }
      | .error e => .error e

/-- The canonical well-formed response envelope of the generative API
(spec section 6): one candidate, one part, carrying `innerText`. -/
def mkEnvelope (innerText : String) : Json :=
  Json.obj
    [("candidates", Json.arr
      [Json.obj
        [("content", Json.obj
          [("parts", Json.arr [Json.obj [("text", Json.str innerText)]])])]])]

/-- The field names of a DiagnosisResult, in the order the code emits them. -/
def diagnosisFields : List String :=
  ["predicted_disease", "description", "precautions", "home_remedies", "language"]

/-- The list of keys of a JSON object, `none` on a non-object. -/
def Json.objKeys : Json → Option (List String)
  | .obj fields => some (fields.map Prod.fst)
  | _ => none

/-- Key lookup on a JSON object, `none` on a non-object or a missing key. -/
def Json.lookupKey : Json → String → Option Json
  | .obj fields, k => fields.lookup k
  | _, _ => none

end DrUncle

namespace DrUncle

/-! ### Concrete collaborators used by witnesses and counterexamples -/

/-- A `json.loads` that fails on every input. -/
def loadsNone : String → Option Json := fun _ => none

/-- A `json.loads` defined only on the literal text `"{}"`, where it returns
the empty JSON object, as Python json.loads does. -/
def loadsEmptyObj : String → Option Json :=
  fun s => if s = "\x7b\x7d" then some (Json.obj []) else none

/-- A transport that fails (raises `RequestException`) on every attempt. -/
def alwaysFail : Transport := fun _ _ => .failure

/-- A transport whose response envelope has a present-but-empty
`candidates` list. -/
def emptyCandidates : Transport :=
  fun _ _ => .success (Json.obj [("candidates", Json.arr [])])

/-- A transport whose response envelope is an object with no
`candidates` entry at all. -/
def noCandidates : Transport := fun _ _ => .success (Json.obj [])

/-- A transport that fails on attempts 0 and 1 and returns a canonical
envelope with inner text `"ok"` on attempt 2. -/
def failTwice : Transport :=
  fun _ n => if n < 2 then .failure else .success (mkEnvelope "ok")

/-- A transport that immediately returns a canonical envelope whose inner
text is `"diag"`. -/
def goodTransport : Transport := fun _ _ => .success (mkEnvelope "diag")

/-- A complete DiagnosisResult-shaped payload, as in the pass-through
example of spec section 8. -/
def commonCold : Json :=
  Json.obj
    [("predicted_disease", Json.str "Common Cold"),
     ("description", Json.str "A viral infection of the upper respiratory tract."),
     ("precautions", Json.arr [Json.str "Rest", Json.str "Hydrate", Json.str "Avoid cold exposure"]),
     ("home_remedies", Json.arr [Json.str "Warm fluids", Json.str "Steam inhalation", Json.str "Honey and ginger tea"]),
     ("language", Json.str "English")]

/-- A `json.loads` defined only on the literal text `"diag"`, where it
returns `commonCold`. -/
def loadsCommonCold : String → Option Json :=
  fun s => if s = "diag" then some commonCold else none

/-- The sample inbound request body of spec section 8. -/
def sampleRequest : Json := Json.obj [("symptoms", Json.str "fever and headache")]

/-! ### Envelope shapes that lack an expected field -/

/-- The envelope shapes of the claim about absent envelope fields: an object
with no `candidates` entry, a first candidate with no `content`, a content
with no `parts`, or a first part with no `text`. -/
def lacksExpectedField (env : Json) : Prop :=
  (∃ fs, env = Json.obj fs ∧ fs.lookup "candidates" = none) ∨
  (∃ fs cfs rest, env = Json.obj fs ∧
      fs.lookup "candidates" = some (Json.arr (Json.obj cfs :: rest)) ∧
      cfs.lookup "content" = none) ∨
  (∃ fs cfs rest gfs, env = Json.obj fs ∧
      fs.lookup "candidates" = some (Json.arr (Json.obj cfs :: rest)) ∧
      cfs.lookup "content" = some (Json.obj gfs) ∧
      gfs.lookup "parts" = none) ∨
  (∃ fs cfs rest gfs pfs rest2, env = Json.obj fs ∧
      fs.lookup "candidates" = some (Json.arr (Json.obj cfs :: rest)) ∧
      cfs.lookup "content" = some (Json.obj gfs) ∧
      gfs.lookup "parts" = some (Json.arr (Json.obj pfs :: rest2)) ∧
      pfs.lookup "text" = none)

/-- On every envelope that lacks an expected field, the chained traversal of
line 61 falls back to its defaults and yields the default text `"{}"`. -/
theorem extractText_default (env : Json) (h : lacksExpectedField env) :
    extractText env = .ok (Json.str "\x7b\x7d") := by
  rcases h with ⟨fs, rfl, hk⟩ | ⟨fs, cfs, rest, rfl, hk, hc⟩ |
    ⟨fs, cfs, rest, gfs, rfl, hk, hc, hp⟩ |
    ⟨fs, cfs, rest, gfs, pfs, rest2, rfl, hk, hc, hp, ht⟩
  · simp [extractText, pyGet, pyIndex0, hk, bind, Except.bind]
  · simp [extractText, pyGet, pyIndex0, hk, hc, bind, Except.bind]
  · simp [extractText, pyGet, pyIndex0, hk, hc, hp, bind, Except.bind]
  · simp [extractText, pyGet, pyIndex0, hk, hc, hp, ht, bind, Except.bind]

/-- Every value the retry loop delivers without an exception is one of the
two error sentinels or exactly an output of `json.loads` (the loop never
builds or modifies a successful payload itself). -/
theorem predictLoop_ok_cases (loads : String → Option Json) (transport : Transport)
    (p : Json) :
    ∀ (remaining retries delay : Nat) (tr : List Nat) (j : Json),
      (predictLoop loads transport p retries remaining delay tr).value = .ok j →
      j = retriesExhaustedResult ∨ j = parseFailureResult ∨ ∃ s, loads s = some j := by
  intro remaining
  induction remaining with
  | zero =>
      intro retries delay tr j h
      simp only [predictLoop] at h
      exact Or.inl (Except.ok.inj h).symm
  | succ n ih =>
      intro retries delay tr j h
      cases htr : transport p retries with
      | failure =>
          simp only [predictLoop, htr] at h
          exact ih _ _ _ j h
      | success env =>
          cases hx : extractText env with
          | error e => simp [predictLoop, htr, hx] at h
          | ok t =>
              cases t with
              | str s =>
                  cases hl : loads s with
                  | some v =>
                      simp [predictLoop, htr, hx, hl] at h
                      exact Or.inr (Or.inr ⟨s, by rw [hl, h]⟩)
                  | none =>
                      simp [predictLoop, htr, hx, hl] at h
                      exact Or.inr (Or.inl h.symm)
              | null => simp [predictLoop, htr, hx] at h
              | bool b => simp [predictLoop, htr, hx] at h
              | num m => simp [predictLoop, htr, hx] at h
              | arr xs => simp [predictLoop, htr, hx] at h
              | obj fs => simp [predictLoop, htr, hx] at h

end DrUncle

namespace DrUncle

/-- With a transport that fails on every attempt, the run is fully
determined: three attempts, sleeps 1, 2 and 4, and the retries-exhausted
sentinel. -/
theorem predict_always_fail_eq (loads : String → Option Json)
    (transport : Transport) (symptoms : String)
    (hfail : ∀ p n, transport p n = .failure) :
    predict_disease_with_gemini loads transport symptoms
      = { value := .ok retriesExhaustedResult, attempts := 3, sleeps := [1, 2, 4] } := by
  simp [predict_disease_with_gemini, predictLoop, hfail]

/-- C1 evidence: on a successful transport response whose envelope has a
present-but-empty `candidates` list, the `[0]` on line 61 raises an
IndexError that neither `except` clause catches, so the exception
propagates to the caller instead of any sentinel DiagnosisResult. -/
theorem C1_empty_candidates_raises :
    (predict_disease_with_gemini loadsNone emptyCandidates "fever").value
        = .error PyExc.indexError ∧
    (predict_disease_with_gemini loadsNone emptyCandidates "fever").attempts = 1 :=
  ⟨rfl, rfl⟩

/-- C2 counterexample: on an envelope with no `candidates` entry the
function returns the empty object parsed from the default text, with one
attempt, not the malformed-response sentinel (the claimed description is
not present at all). -/
theorem C2_counterexample :
    (predict_disease_with_gemini loadsEmptyObj noCandidates "fever").value
        = .ok (Json.obj []) ∧
    (predict_disease_with_gemini loadsEmptyObj noCandidates "fever").attempts = 1 ∧
    Json.obj [] ≠ parseFailureResult ∧
    (Json.obj []).lookupKey "description" = none :=
  ⟨rfl, rfl, by simp [parseFailureResult], rfl⟩

/-- C2 as amended: for every successful transport response whose envelope
lacks an expected field (no candidates entry, first candidate without
content, content without parts, or first part without text), the absent
fields are treated as empty/default without an unhandled failure, the
inner text defaults to `"{}"`, which parses successfully, and the function
returns the empty JSON object after one attempt — not the
malformed-response sentinel. -/
theorem C2_absent_fields_yield_empty_object (loads : String → Option Json)
    (transport : Transport) (symptoms : String) (env : Json)
    (hload : loads "\x7b\x7d" = some (Json.obj []))
    (henv : lacksExpectedField env)
    (htr : transport (payload symptoms) 0 = .success env) :
    predict_disease_with_gemini loads transport symptoms
      = { value := .ok (Json.obj []), attempts := 1, sleeps := [] } ∧
    Json.obj [] ≠ parseFailureResult := by
  have hx := extractText_default env henv
  refine ⟨?_, by simp [parseFailureResult]⟩
  simp [predict_disease_with_gemini, predictLoop, htr, hx, hload]

/-- Witness for the amended C2 at a concrete input. -/
theorem C2_absent_fields_yield_empty_object_witness :
    loadsEmptyObj "\x7b\x7d" = some (Json.obj []) ∧
    lacksExpectedField (Json.obj []) ∧
    noCandidates (payload "fever") 0 = .success (Json.obj []) ∧
    (predict_disease_with_gemini loadsEmptyObj noCandidates "fever"
        = { value := .ok (Json.obj []), attempts := 1, sleeps := [] } ∧
      Json.obj [] ≠ parseFailureResult) :=
  ⟨rfl, Or.inl ⟨[], rfl, rfl⟩, rfl,
    C2_absent_fields_yield_empty_object loadsEmptyObj noCandidates "fever" (Json.obj [])
      rfl (Or.inl ⟨[], rfl, rfl⟩) rfl⟩

/-- C3: with a transport that fails on every attempt, the function makes
exactly 3 attempts, the delays before the second and third attempts are
1 and 2 time-units, and it returns the sentinel whose description is
exactly the retries-exhausted message with empty precaution and remedy
lists. -/
theorem C3_always_fail_three_attempts (loads : String → Option Json)
    (transport : Transport) (symptoms : String)
    (hfail : ∀ p n, transport p n = .failure) :
    (predict_disease_with_gemini loads transport symptoms).attempts = 3 ∧
    ((predict_disease_with_gemini loads transport symptoms).sleeps).take 2 = [1, 2] ∧
    (predict_disease_with_gemini loads transport symptoms).value
        = .ok retriesExhaustedResult ∧
    retriesExhaustedResult.lookupKey "description"
        = some (Json.str "Failed to connect to the prediction service after multiple retries.") ∧
    retriesExhaustedResult.lookupKey "precautions" = some (Json.arr []) ∧
    retriesExhaustedResult.lookupKey "home_remedies" = some (Json.arr []) := by
  rw [predict_always_fail_eq loads transport symptoms hfail]
  exact ⟨rfl, rfl, rfl, rfl, rfl, rfl⟩

/-- Witness for C3 at a concrete always-failing transport. -/
theorem C3_always_fail_three_attempts_witness :
    (∀ p n, alwaysFail p n = .failure) ∧
    ((predict_disease_with_gemini loadsNone alwaysFail "fever").attempts = 3 ∧
      ((predict_disease_with_gemini loadsNone alwaysFail "fever").sleeps).take 2 = [1, 2] ∧
      (predict_disease_with_gemini loadsNone alwaysFail "fever").value
          = .ok retriesExhaustedResult ∧
      retriesExhaustedResult.lookupKey "description"
          = some (Json.str "Failed to connect to the prediction service after multiple retries.") ∧
      retriesExhaustedResult.lookupKey "precautions" = some (Json.arr []) ∧
      retriesExhaustedResult.lookupKey "home_remedies" = some (Json.arr [])) :=
  ⟨fun _ _ => rfl,
    C3_always_fail_three_attempts loadsNone alwaysFail "fever" (fun _ _ => rfl)⟩

/-- C4: when the first transport attempt succeeds but the envelope's inner
text does not parse, the function makes exactly one attempt, performs no
backoff sleep, and immediately returns the malformed-response sentinel
with its exact description. -/
theorem C4_malformed_single_attempt (loads : String → Option Json)
    (transport : Transport) (symptoms s : String) (env : Json)
    (htr : transport (payload symptoms) 0 = .success env)
    (hx : extractText env = .ok (Json.str s))
    (hbad : loads s = none) :
    predict_disease_with_gemini loads transport symptoms
      = { value := .ok parseFailureResult, attempts := 1, sleeps := [] } ∧
    parseFailureResult.lookupKey "description"
        = some (Json.str "Failed to parse API response. The model may have returned an invalid format.") := by
  refine ⟨?_, rfl⟩
  simp [predict_disease_with_gemini, predictLoop, htr, hx, hbad]

/-- Witness for C4 with a transport delivering unparseable inner text. -/
theorem C4_malformed_single_attempt_witness :
    (fun _ _ => .success (mkEnvelope "not json") : Transport) (payload "fever") 0
        = .success (mkEnvelope "not json") ∧
    extractText (mkEnvelope "not json") = .ok (Json.str "not json") ∧
    loadsNone "not json" = none ∧
    (predict_disease_with_gemini loadsNone (fun _ _ => .success (mkEnvelope "not json")) "fever"
        = { value := .ok parseFailureResult, attempts := 1, sleeps := [] } ∧
      parseFailureResult.lookupKey "description"
          = some (Json.str "Failed to parse API response. The model may have returned an invalid format.")) :=
  ⟨rfl, rfl, rfl,
    C4_malformed_single_attempt loadsNone (fun _ _ => .success (mkEnvelope "not json"))
      "fever" "not json" (mkEnvelope "not json") rfl rfl rfl⟩

/-- C5: when the transport fails on attempts 0 and 1 and succeeds on
attempt 2 with an envelope whose inner text parses to `v`, the function
makes exactly 3 attempts (sleeping 1 then 2 in between) and returns `v`,
the result of parsing the third response. -/
theorem C5_two_failures_then_success (loads : String → Option Json)
    (transport : Transport) (symptoms s : String) (env v : Json)
    (h0 : transport (payload symptoms) 0 = .failure)
    (h1 : transport (payload symptoms) 1 = .failure)
    (h2 : transport (payload symptoms) 2 = .success env)
    (hx : extractText env = .ok (Json.str s))
    (hv : loads s = some v) :
    predict_disease_with_gemini loads transport symptoms
      = { value := .ok v, attempts := 3, sleeps := [1, 2] } := by
  simp [predict_disease_with_gemini, predictLoop, h0, h1, h2, hx, hv]

/-- Witness for C5: fails twice, then delivers `commonCold`. -/
theorem C5_two_failures_then_success_witness :
    failTwice (payload "fever") 0 = .failure ∧
    failTwice (payload "fever") 1 = .failure ∧
    failTwice (payload "fever") 2 = .success (mkEnvelope "ok") ∧
    extractText (mkEnvelope "ok") = .ok (Json.str "ok") ∧
    (fun s => if s = "ok" then some commonCold else none : String → Option Json) "ok"
        = some commonCold ∧
    predict_disease_with_gemini (fun s => if s = "ok" then some commonCold else none)
        failTwice "fever"
      = { value := .ok commonCold, attempts := 3, sleeps := [1, 2] } :=
  ⟨rfl, rfl, rfl, rfl, rfl,
    C5_two_failures_then_success (fun s => if s = "ok" then some commonCold else none)
      failTwice "fever" "ok" (mkEnvelope "ok") commonCold rfl rfl rfl rfl rfl⟩

/-- C6: when the first transport attempt returns the canonical well-formed
envelope carrying inner text `s` and `s` parses to a complete
DiagnosisResult-shaped object `v`, the function returns exactly `v`,
unchanged. -/
theorem C6_pass_through_fidelity (loads : String → Option Json)
    (transport : Transport) (symptoms s : String) (v : Json)
    (htr : transport (payload symptoms) 0 = .success (mkEnvelope s))
    (hv : loads s = some v)
    (_hshape : v.objKeys = some diagnosisFields) :
    (predict_disease_with_gemini loads transport symptoms).value = .ok v := by
  have hx : extractText (mkEnvelope s) = .ok (Json.str s) := rfl
  simp [predict_disease_with_gemini, predictLoop, htr, hx, hv]

/-- Witness for C6 with the Common Cold payload of the spec. -/
theorem C6_pass_through_fidelity_witness :
    goodTransport (payload "fever") 0 = .success (mkEnvelope "diag") ∧
    loadsCommonCold "diag" = some commonCold ∧
    commonCold.objKeys = some diagnosisFields ∧
    (predict_disease_with_gemini loadsCommonCold goodTransport "fever").value
        = .ok commonCold :=
  ⟨rfl, rfl, rfl,
    C6_pass_through_fidelity loadsCommonCold goodTransport "fever" "diag" commonCold
      rfl rfl rfl⟩

end DrUncle

namespace DrUncle

/-- C7 counterexample: for the non-empty symptom string "fever" there is a
transport behaviour (success with an envelope lacking `candidates`) on
which the returned value is the empty object, which does not have the five
DiagnosisResult fields. -/
theorem C7_counterexample :
    (predict_disease_with_gemini loadsEmptyObj noCandidates "fever").value
        = .ok (Json.obj []) ∧
    (Json.obj []).objKeys ≠ some diagnosisFields :=
  ⟨rfl, by simp [Json.objKeys, diagnosisFields]⟩

/-- C7 as amended: every value the function returns without an exception is
one of the two error sentinels — each of which is fully populated with the
five fields, `predicted_disease = "Error"` and empty precaution and remedy
lists — or exactly an output of `json.loads`; the success path performs no
validation, so the full-population and 0-4-entries invariant holds only as
far as the parsed model output happens to satisfy it. -/
theorem C7_result_trichotomy (loads : String → Option Json) (transport : Transport)
    (symptoms : String) (j : Json)
    (h : (predict_disease_with_gemini loads transport symptoms).value = .ok j) :
    (j = retriesExhaustedResult ∨ j = parseFailureResult ∨ ∃ s, loads s = some j) ∧
    retriesExhaustedResult.objKeys = some diagnosisFields ∧
    parseFailureResult.objKeys = some diagnosisFields ∧
    retriesExhaustedResult.lookupKey "predicted_disease" = some (Json.str "Error") ∧
    parseFailureResult.lookupKey "predicted_disease" = some (Json.str "Error") ∧
    retriesExhaustedResult.lookupKey "precautions" = some (Json.arr []) ∧
    retriesExhaustedResult.lookupKey "home_remedies" = some (Json.arr []) ∧
    parseFailureResult.lookupKey "precautions" = some (Json.arr []) ∧
    parseFailureResult.lookupKey "home_remedies" = some (Json.arr []) :=
  ⟨predictLoop_ok_cases loads transport (payload symptoms) 3 0 1 [] j h,
    rfl, rfl, rfl, rfl, rfl, rfl, rfl, rfl⟩

/-- Witness for the amended C7 on the always-failing transport. -/
theorem C7_result_trichotomy_witness :
    (predict_disease_with_gemini loadsNone alwaysFail "fever").value
        = .ok retriesExhaustedResult ∧
    ((retriesExhaustedResult = retriesExhaustedResult ∨
        retriesExhaustedResult = parseFailureResult ∨
        ∃ s, loadsNone s = some retriesExhaustedResult) ∧
      retriesExhaustedResult.objKeys = some diagnosisFields ∧
      parseFailureResult.objKeys = some diagnosisFields ∧
      retriesExhaustedResult.lookupKey "predicted_disease" = some (Json.str "Error") ∧
      parseFailureResult.lookupKey "predicted_disease" = some (Json.str "Error") ∧
      retriesExhaustedResult.lookupKey "precautions" = some (Json.arr []) ∧
      retriesExhaustedResult.lookupKey "home_remedies" = some (Json.arr []) ∧
      parseFailureResult.lookupKey "precautions" = some (Json.arr []) ∧
      parseFailureResult.lookupKey "home_remedies" = some (Json.arr [])) :=
  ⟨rfl, C7_result_trichotomy loadsNone alwaysFail "fever" retriesExhaustedResult rfl⟩

/-- C8 counterexample: on the retry-exhaustion error path the sentinel has
`language` present and equal to `"English"`, which is not empty. -/
theorem C8_counterexample :
    (predict_disease_with_gemini loadsNone alwaysFail "fever").value
        = .ok retriesExhaustedResult ∧
    retriesExhaustedResult.lookupKey "language" = some (Json.str "English") ∧
    "English" ≠ "" :=
  ⟨rfl, rfl, by decide⟩

/-- C8 as amended: on both error paths (retry exhaustion and malformed
response) the returned sentinel has `language` present and equal to
`"English"`. -/
theorem C8_error_paths_language_english (loads : String → Option Json)
    (symptoms : String) :
    (∀ transport : Transport, (∀ p n, transport p n = .failure) →
      ∃ j, (predict_disease_with_gemini loads transport symptoms).value = .ok j ∧
        j.lookupKey "language" = some (Json.str "English")) ∧
    (∀ (transport : Transport) (env : Json) (s : String),
      transport (payload symptoms) 0 = .success env →
      extractText env = .ok (Json.str s) → loads s = none →
      ∃ j, (predict_disease_with_gemini loads transport symptoms).value = .ok j ∧
        j.lookupKey "language" = some (Json.str "English")) := by
  constructor
  · intro transport hfail
    refine ⟨retriesExhaustedResult, ?_, rfl⟩
    rw [predict_always_fail_eq loads transport symptoms hfail]
  · intro transport env s htr hx hl
    refine ⟨parseFailureResult, ?_, rfl⟩
    simp [predict_disease_with_gemini, predictLoop, htr, hx, hl]

/-- Witness for the amended C8 on the always-failing transport. -/
theorem C8_error_paths_language_english_witness :
    ∃ j, (predict_disease_with_gemini loadsNone alwaysFail "fever").value = .ok j ∧
      j.lookupKey "language" = some (Json.str "English") :=
  (C8_error_paths_language_english loadsNone "fever").1 alwaysFail (fun _ _ => rfl)

/-- C9 counterexample: with the body of spec section 8 and a transport whose
envelope lacks `candidates`, the handler delivers 200 with the empty object
(not five fields); with a present-but-empty candidates list the handler
does not deliver 200 at all — the IndexError propagates out of the view. -/
theorem C9_counterexample :
    predict loadsEmptyObj noCandidates
        (Json.obj [("symptoms", Json.str "fever and headache")])
      = .ok { status := 200, body := Json.obj [] } ∧
    (Json.obj []).objKeys ≠ some diagnosisFields ∧
    predict loadsNone emptyCandidates
        (Json.obj [("symptoms", Json.str "fever and headache")])
      = .error PyExc.indexError :=
  ⟨rfl, by simp [Json.objKeys, diagnosisFields], rfl⟩

/-- C9 as amended: for a JSON-object body with a string `symptoms` field,
the handler returns status 200 with exactly the value the diagnosis call
returned, whatever it is; when the diagnosis call raises, the exception
propagates out of the view (no 200 at all); on the retry-exhaustion error
path the delivered 200 body has exactly the five DiagnosisResult fields. -/
theorem C9_handler_delegation (loads : String → Option Json) (transport : Transport)
    (fields : List (String × Json)) (symptoms : String)
    (hsym : fields.lookup "symptoms" = some (Json.str symptoms)) :
    (∀ j : Json, (predict_disease_with_gemini loads transport symptoms).value = .ok j →
        predict loads transport (Json.obj fields) = .ok { status := 200, body := j }) ∧
    (∀ e : PyExc, (predict_disease_with_gemini loads transport symptoms).value = .error e →
        predict loads transport (Json.obj fields) = .error e) ∧
    ((∀ p n, transport p n = .failure) →
        predict loads transport (Json.obj fields)
          = .ok { status := 200, body := retriesExhaustedResult } ∧
        retriesExhaustedResult.objKeys = some diagnosisFields) := by
  have hget : pyGet (Json.obj fields) "symptoms" Json.null = .ok (Json.str symptoms) := by
    simp [pyGet, hsym]
  refine ⟨?_, ?_, ?_⟩
  · intro j hj
    simp [predict, hget, pyStr, hj]
  · intro e he
    simp [predict, hget, pyStr, he]
  · intro hfail
    refine ⟨?_, rfl⟩
    have hv : (predict_disease_with_gemini loads transport symptoms).value
        = .ok retriesExhaustedResult := by
      rw [predict_always_fail_eq loads transport symptoms hfail]
    simp [predict, hget, pyStr, hv]

/-- Witness for the amended C9 on the always-failing transport. -/
theorem C9_handler_delegation_witness :
    [("symptoms", Json.str "fever and headache")].lookup "symptoms"
        = some (Json.str "fever and headache") ∧
    (predict loadsNone alwaysFail (Json.obj [("symptoms", Json.str "fever and headache")])
        = .ok { status := 200, body := retriesExhaustedResult } ∧
      retriesExhaustedResult.objKeys = some diagnosisFields) :=
  ⟨rfl,
    (C9_handler_delegation loadsNone alwaysFail
      [("symptoms", Json.str "fever and headache")] "fever and headache" rfl).2.2
      (fun _ _ => rfl)⟩

/-- C10: with a transport that fails on every attempt, the code also sleeps
after the third and final failed attempt — the sleep trace is exactly
[1, 2, 4], summing to 7 time-units, before the sentinel is returned. -/
theorem C10_sleep_after_final_attempt (loads : String → Option Json)
    (transport : Transport) (symptoms : String)
    (hfail : ∀ p n, transport p n = .failure) :
    (predict_disease_with_gemini loads transport symptoms).sleeps = [1, 2, 4] ∧
    ((predict_disease_with_gemini loads transport symptoms).sleeps).sum = 7 ∧
    (predict_disease_with_gemini loads transport symptoms).attempts = 3 ∧
    (predict_disease_with_gemini loads transport symptoms).value
        = .ok retriesExhaustedResult := by
  rw [predict_always_fail_eq loads transport symptoms hfail]
  refine ⟨rfl, by simp, rfl, rfl⟩

/-- Witness for C10 on the always-failing transport. -/
theorem C10_sleep_after_final_attempt_witness :
    (∀ p n, alwaysFail p n = .failure) ∧
    ((predict_disease_with_gemini loadsNone alwaysFail "fever").sleeps = [1, 2, 4] ∧
      ((predict_disease_with_gemini loadsNone alwaysFail "fever").sleeps).sum = 7 ∧
      (predict_disease_with_gemini loadsNone alwaysFail "fever").attempts = 3 ∧
      (predict_disease_with_gemini loadsNone alwaysFail "fever").value
          = .ok retriesExhaustedResult) :=
  ⟨fun _ _ => rfl,
    C10_sleep_after_final_attempt loadsNone alwaysFail "fever" (fun _ _ => rfl)⟩

end DrUncle
